import Mathlib

/-!
Verification development for the Ansible module
`library/ec2_transit_gateway_route_table.py` (AWS Transit Gateway route
table reconciler).

The module is shallowly embedded: the remote EC2 control plane is a pure
`World` value (a list of route-table states), every remote call the module
issues is recorded in an `ApiCall` trace, and the effect of the mutating
calls on the remote state is given by `applyCall`.  Each Python function
of the module (`tags_match`, `ensure_tags`, `get_route_table_by_id`,
`get_route_table_by_tags`, `ensure_route_table_absent`,
`ensure_associations`, `ensure_routes`, `ensure_route_table_present`)
becomes a Lean function of the same name that returns its result together
with the list of remote calls it performs, in order.  Remote reads are
pure functions of the `World`; the world after a step is obtained by
folding `applyCall` over the emitted trace.
-/

namespace TgwRouteTable

/-- A tag dictionary, as an association list (Python dict: unique keys,
insertion ordered).  `List.lookup` returns the first binding. -/
abbrev Tags := List (String × String)

/-- One association of an attachment to a route table.  The remote side
reports, besides the attachment id, whether this is the main/default
association; the Python code only ever reads the attachment id. -/
structure Association where
  attachmentId : String
  isMain : Bool
deriving DecidableEq, Repr

/-- A desired route entry, as supplied in the routes parameter of the module:
a dict with keys `dest_cidr` and `tgw_attachment_id`. -/
structure DesiredRoute where
  dest_cidr : String
  tgw_attachment_id : String
deriving DecidableEq, Repr

/-- Remote state of one transit-gateway route table: its id, owning
gateway, tags, associations and active static routes (destination CIDR
paired with the attachment the route points at). -/
structure RouteTableState where
  rtbId : String
  tgwId : String
  rtags : Tags
  assocs : List Association
  activeRoutes : List (String × String)
deriving DecidableEq, Repr

/-- The remote control plane: the set of existing route tables. -/
abbrev World := List RouteTableState

/-- One remote API call issued by the module, reads included.
`createRouteTable` carries, besides the requested gateway id, the table id
the remote side assigns in its response, so that the effect of the call on the
`World` is determined by the call itself. -/
inductive ApiCall where
  | describeRouteTablesById (rtbId : String)
  | describeRouteTablesByTgw (tgwId : String)
  | describeTags (resourceId : String)
  | createRouteTable (tgwId : String) (freshId : String)
  | deleteRouteTable (rtbId : String)
  | createTags (resourceId : String) (adds : Tags)
  | deleteTags (resourceId : String) (keys : List String)
  | associate (rtbId : String) (attachmentId : String)
  | disassociate (rtbId : String) (attachmentId : String)
  | getAssociations (rtbId : String)
  | searchRoutes (rtbId : String)
  | createRoute (rtbId : String) (cidr : String) (attachmentId : String)
  | deleteRoute (rtbId : String) (cidr : String)
deriving DecidableEq, Repr

/-- Whether a call changes remote state (everything except the describe,
get and search reads). -/
def ApiCall.isMutating : ApiCall → Bool
  | .createRouteTable _ _ => true
  | .deleteRouteTable _ => true
  | .createTags _ _ => true
  | .deleteTags _ _ => true
  | .associate _ _ => true
  | .disassociate _ _ => true
  | .createRoute _ _ _ => true
  | .deleteRoute _ _ => true
  | _ => false

/-- The mutating calls of a trace. -/
def mutCalls (cs : List ApiCall) : List ApiCall :=
  cs.filter ApiCall.isMutating

/-- `create_tags`: each (key, value) pair is set, overwriting an existing
value for the key. -/
def applyCreateTags (base adds : Tags) : Tags :=
  base.filter (fun p => (adds.lookup p.1).isNone) ++ adds

/-- Apply an edit to every table with the given id (ids are unique on the
remote side). -/
def modifyTable (w : World) (rid : String) (f : RouteTableState → RouteTableState) : World :=
  w.map (fun t => if t.rtbId == rid then f t else t)

/-- Effect of one call on the remote state.  Reads change nothing.
Deletes of tags/routes/associations remove every matching entry; a fresh
table starts with no tags, associations or routes. -/
def applyCall (w : World) (c : ApiCall) : World :=
  match c with
  | .createRouteTable tgw fresh => w ++ [⟨fresh, tgw, [], [], []⟩]
  | .deleteRouteTable rid => w.filter (fun t => t.rtbId != rid)
  | .createTags rid adds =>
      modifyTable w rid (fun t => { t with rtags := applyCreateTags t.rtags adds })
  | .deleteTags rid keys =>
      modifyTable w rid (fun t => { t with rtags := t.rtags.filter (fun p => !(keys.contains p.1)) })
  | .associate rid att =>
      modifyTable w rid (fun t => { t with assocs := t.assocs ++ [⟨att, false⟩] })
  | .disassociate rid att =>
      modifyTable w rid (fun t => { t with assocs := t.assocs.filter (fun a => a.attachmentId != att) })
  | .createRoute rid cidr att =>
      modifyTable w rid (fun t => { t with activeRoutes := t.activeRoutes ++ [(cidr, att)] })
  | .deleteRoute rid cidr =>
      modifyTable w rid (fun t => { t with activeRoutes := t.activeRoutes.filter (fun r => r.1 != cidr) })
  | _ => w

/-- Fold the effect of a trace over the world. -/
def applyCalls (w : World) (cs : List ApiCall) : World :=
  cs.foldl applyCall w

/-- Tags of a resource as reported by `describe_tags` (empty for an
unknown resource id). -/
def getTagsOf (w : World) (rid : String) : Tags :=
  match w.find? (fun t => t.rtbId == rid) with
  | some t => t.rtags
  | none => []

/-- Associations of a table as reported by
`get_transit_gateway_route_table_associations`. -/
def getAssocsOf (w : World) (rid : String) : List Association :=
  match w.find? (fun t => t.rtbId == rid) with
  | some t => t.assocs
  | none => []

/-- Active routes of a table as reported by
`search_transit_gateway_routes` with the `type: active` filter. -/
def getRoutesOf (w : World) (rid : String) : List (String × String) :=
  match w.find? (fun t => t.rtbId == rid) with
  | some t => t.activeRoutes
  | none => []

/-- `tags_match(match_tags, candidate_tags)` (line 222): every key/value
pair of `match_tags` is present in `candidate_tags` with the same value. -/
def tags_match (match_tags candidate_tags : Tags) : Bool :=
  match_tags.all (fun p => candidate_tags.lookup p.1 == some p.2)

/-- Modelled from the spec: the helper `compare_aws_tags(cur, new, purge)`
is imported from the `amazon.aws` collection and is not part of this
sources of this repository.  Per the spec, `to_add` is the entries of the
desired set whose key is missing from the current set or whose value
differs, and `to_delete` is, when purging, the keys present in the
current set but absent from the desired set (otherwise empty). -/
def compare_aws_tags (cur new : Tags) (purge : Bool) : Tags × List String :=
  (new.filter (fun p => !(cur.lookup p.1 == some p.2)),
   if purge then (cur.map Prod.fst).filter (fun k => (new.lookup k).isNone) else [])

/-- Result of `ensure_tags`: the returned dict with keys changed and tags.
The `tags` field is an `Option` because the check-mode branch of the
Python code evaluates `cur_tags.update(tags)` — the Python `dict.update` method
returns `None` — so the module can return a null tag set. -/
structure TagsResult where
  changed : Bool
  tags : Option Tags
deriving DecidableEq, Repr

/-- `ensure_tags` (lines 227-257): fetch current tags, diff with
`compare_aws_tags`; if the diff is empty report unchanged with the
current tags; in check mode report changed with (purging) the desired
tags or (not purging) the result of `cur_tags.update(tags)`, which is
`None`; otherwise delete the stale keys, then create the new tags, then
re-fetch and return the authoritative tag set. -/
def ensure_tags (w : World) (resource_id : String) (tags : Tags)
    (purge_tags check_mode : Bool) : TagsResult × List ApiCall :=
  let cur_tags := getTagsOf w resource_id
  let diff := compare_aws_tags cur_tags tags purge_tags
  let to_add := diff.1
  let to_delete := diff.2
  if to_add.isEmpty && to_delete.isEmpty then
    (⟨false, some cur_tags⟩, [.describeTags resource_id])
  else if check_mode then
    (⟨true, if purge_tags then some tags else none⟩, [.describeTags resource_id])
  else
    let delCalls : List ApiCall :=
      if to_delete.isEmpty then [] else [.deleteTags resource_id to_delete]
    let addCalls : List ApiCall :=
      if to_add.isEmpty then [] else [.createTags resource_id to_add]
    let calls : List ApiCall := .describeTags resource_id :: (delCalls ++ addCalls)
    let latest_tags := getTagsOf (applyCalls w calls) resource_id
    (⟨true, some latest_tags⟩, calls ++ [.describeTags resource_id])

/-- `get_route_table_by_id` (lines 271-281): describe by id; a not-found
error maps to an absent result, otherwise the first returned table. -/
def get_route_table_by_id (w : World) (route_table_id : String) :
    Option RouteTableState × List ApiCall :=
  (w.find? (fun t => t.rtbId == route_table_id),
   [.describeRouteTablesById route_table_id])

/-- `get_route_table_by_tags` (lines 284-301): list the tables of the
gateway, fetch the tags of each candidate, keep those whose tags contain all
desired pairs; more than one match is a hard failure, otherwise the last
match (Python keeps overwriting `route_table`), which for at most one
match is the match itself. -/
def get_route_table_by_tags (w : World) (tgw_id : String) (tags : Tags) :
    Except String (Option RouteTableState) × List ApiCall :=
  let candidates := w.filter (fun t => t.tgwId == tgw_id)
  let calls : List ApiCall :=
    .describeRouteTablesByTgw tgw_id :: candidates.map (fun t => .describeTags t.rtbId)
  let hits := candidates.filter (fun t => tags_match tags t.rtags)
  ((if hits.length > 1 then
      .error "Tags provided do not identify a unique route table"
    else
      .ok hits.getLast?), calls)

/-- A result record carrying only the changed flag of a reconciliation
step. -/
structure ChangedResult where
  changed : Bool
deriving DecidableEq, Repr

/-- `ensure_associations` (lines 370-413): list the current associations,
project to attachment ids; associate every desired id missing from the
current list (in desired order), then disassociate every current id
missing from the desired list (in current order).  In check mode the
mutating calls are skipped but the changed flag is still computed. -/
def ensure_associations (w : World) (rtbId : String) (associations : List String)
    (check_mode : Bool) : ChangedResult × List ApiCall :=
  let assoc_list := getAssocsOf w rtbId
  let existing_attachments := assoc_list.map (fun a => a.attachmentId)
  let assocCalls : List ApiCall :=
    (associations.filter (fun a => !(existing_attachments.contains a))).map
      (fun a => .associate rtbId a)
  let disCalls : List ApiCall :=
    (existing_attachments.filter (fun a => !(associations.contains a))).map
      (fun a => .disassociate rtbId a)
  let changed := !(assocCalls.isEmpty && disCalls.isEmpty)
  (⟨changed⟩, .getAssociations rtbId :: (if check_mode then [] else assocCalls ++ disCalls))

/-- The key set of the `existing_cidrs` dict built by `ensure_routes`
(lines 429-434): insertion-ordered CIDR keys, one per route that has at
least one attachment.  The values of the two dicts the loop builds are
never read afterwards, so only the key list is kept. -/
def existingCidrKeys (route_list : List (String × List String)) : List String :=
  route_list.foldl
    (fun ks r => if r.2.isEmpty || ks.contains r.1 then ks else ks ++ [r.1]) []

/-- `ensure_routes` (lines 416-469): search active routes, index their
CIDRs; create every desired route whose CIDR is absent from the index;
then, for every indexed CIDR absent from the desired list, issue a
delete — whose `DestinationCidrBlock` argument is the dest_cidr subscript
of `route`,
where `route` is the leftover loop variable: the LAST desired route when
the desired list is non-empty, and otherwise an element of the API
response (a dict with no `dest_cidr` key, so an unhandled `KeyError`).
In check mode the mutating calls (and the `KeyError`) are skipped. -/
def ensure_routes (w : World) (rtbId : String) (routes : List DesiredRoute)
    (check_mode : Bool) : Except String ChangedResult × List ApiCall :=
  let route_list := (getRoutesOf w rtbId).map (fun p => (p.1, [p.2]))
  let existing_cidrs := existingCidrKeys route_list
  let missing := routes.filter (fun r => !(existing_cidrs.contains r.dest_cidr))
  let errant := existing_cidrs.filter
    (fun c => !((routes.map (fun r => r.dest_cidr)).contains c))
  let changed := !(missing.isEmpty && errant.isEmpty)
  if check_mode then
    (.ok ⟨changed⟩, [.searchRoutes rtbId])
  else
    let createCalls : List ApiCall :=
      missing.map (fun r => .createRoute rtbId r.dest_cidr r.tgw_attachment_id)
    match errant, routes.getLast? with
    | [], _ => (.ok ⟨changed⟩, .searchRoutes rtbId :: createCalls)
    | _ :: _, some r =>
        (.ok ⟨changed⟩,
         .searchRoutes rtbId ::
           (createCalls ++ errant.map (fun _ => .deleteRoute rtbId r.dest_cidr)))
    | _ :: _, none =>
        (.error "KeyError: dest_cidr", .searchRoutes rtbId :: createCalls)

/-- The lookup mode (`lookup` option): by tag or by id. -/
inductive Lookup where
  | tag
  | id
deriving DecidableEq, Repr

/-- The module parameters relevant to the reconciliation functions.
`route_table_id` is only read when `lookup = id` (the argument-spec
`required_if` guarantees it is then supplied). -/
structure ModuleParams where
  lookup : Lookup
  purge_tags : Bool
  route_table_id : String
  tags : Option Tags
  tgw_id : String
  associations : Option (List String)
  routes : Option (List DesiredRoute)
  check_mode : Bool
deriving DecidableEq, Repr

/-- The lookup phase shared by `ensure_route_table_absent` (lines 316-322)
and `ensure_route_table_present` (lines 486-498): by tag when tags are
supplied (no lookup at all when they are not), by id otherwise. -/
def lookup_route_table (w : World) (p : ModuleParams) :
    Except String (Option RouteTableState) × List ApiCall :=
  match p.lookup with
  | .tag =>
      match p.tags with
      | some tags => get_route_table_by_tags w p.tgw_id tags
      | none => (.ok none, [])
  | .id =>
      let r := get_route_table_by_id w p.route_table_id
      (.ok r.1, r.2)

/-- `ensure_route_table_absent` (lines 309-340): look the table up; if
none is found report unchanged; otherwise delete it (skipping the delete
call in check mode) and report changed. -/
def ensure_route_table_absent (w : World) (p : ModuleParams) :
    Except String ChangedResult × List ApiCall :=
  match lookup_route_table w p with
  | (.error e, calls) => (.error e, calls)
  | (.ok none, calls) => (.ok ⟨false⟩, calls)
  | (.ok (some t), calls) =>
      if p.check_mode then (.ok ⟨true⟩, calls)
      else (.ok ⟨true⟩, calls ++ [.deleteRouteTable t.rtbId])

/-- The final snapshot returned by the module (`get_route_table_info`
plus the backwards-compatible `id` key, lines 343-352). -/
structure Snapshot where
  id : String
  route_table_id : String
  tgw_id : String
  tags : Tags
  assocs : List Association
  activeRoutes : List (String × String)
deriving DecidableEq, Repr

/-- Snapshot of a remote table state. -/
def snapshotOf (t : RouteTableState) : Snapshot :=
  ⟨t.rtbId, t.rtbId, t.tgwId, t.rtags, t.assocs, t.activeRoutes⟩

/-- `get_route_table_info` (lines 343-352): re-fetch the table by id and
its tags; `None` when the id no longer resolves (in Python that would be
a `TypeError` on subscripting `None`). -/
def get_route_table_info (w : World) (rtbId : String) :
    Option Snapshot × List ApiCall :=
  ((w.find? (fun t => t.rtbId == rtbId)).map snapshotOf,
   [.describeRouteTablesById rtbId, .describeTags rtbId])

/-- The check-mode placeholder dict
`{"id": "rtb-xxxxxxxx", "route_table_id": "rtb-xxxxxxxx", "tgw_id": tgw_id}`
(line 510); the remaining fields are absent in the Python dict and kept
empty here. -/
def placeholderSnapshot (tgw_id : String) : Snapshot :=
  ⟨"rtb-xxxxxxxx", "rtb-xxxxxxxx", tgw_id, [], [], []⟩

/-- Result of `ensure_route_table_present`: the changed flag and the
route-table snapshot passed to `module.exit_json`. -/
structure PresentResult where
  changed : Bool
  route_table : Snapshot
deriving DecidableEq, Repr

/-- The final step of `ensure_route_table_present` (line 534): re-fetch
the table (`get_route_table_info`) and exit with the changed flag and
the snapshot; in Python a vanished table would make the info helper
subscript `None`, a `TypeError`. -/
def finishPresent (w3 : World) (rtbId : String) (changed : Bool) (cs : List ApiCall) :
    Except String PresentResult × List ApiCall :=
  match get_route_table_info w3 rtbId with
  | (some snap, iCalls) => (.ok ⟨changed, snap⟩, cs ++ iCalls)
  | (none, iCalls) => (.error "TypeError: route table not found on refetch", cs ++ iCalls)

/-- The attribute-convergence phases of `ensure_route_table_present`
(lines 514-534): tag reconciliation when tags were supplied, then
association reconciliation, then route reconciliation, each reading the
world as left by the previous phase; finally the authoritative re-fetch.
`cs` is the trace accumulated before these phases. -/
def runPhases (w : World) (p : ModuleParams) (rtbId : String) (changed0 : Bool)
    (cs : List ApiCall) : Except String PresentResult × List ApiCall :=
  let tagsStep : TagsResult × List ApiCall :=
    match p.tags with
    | some tags => ensure_tags w rtbId tags p.purge_tags p.check_mode
    | none => (⟨false, none⟩, [])
  let w1 := applyCalls w tagsStep.2
  let changed1 := changed0 || tagsStep.1.changed
  let assocStep : ChangedResult × List ApiCall :=
    match p.associations with
    | some assocs => ensure_associations w1 rtbId assocs p.check_mode
    | none => (⟨false⟩, [])
  let w2 := applyCalls w1 assocStep.2
  let changed2 := changed1 || assocStep.1.changed
  let routeStep : Except String ChangedResult × List ApiCall :=
    match p.routes with
    | some routes => ensure_routes w2 rtbId routes p.check_mode
    | none => (.ok ⟨false⟩, [])
  match routeStep with
  | (.error e, rCalls) => (.error e, cs ++ tagsStep.2 ++ assocStep.2 ++ rCalls)
  | (.ok rRes, rCalls) =>
      finishPresent (applyCalls w2 rCalls) rtbId (changed2 || rRes.changed)
        (cs ++ tagsStep.2 ++ assocStep.2 ++ rCalls)

/-- `ensure_route_table_present` (lines 472-534): look the table up (no
lookup when `lookup=tag` and no tags are given); when none is found,
in check mode exit immediately with the placeholder snapshot and
changed=true, otherwise create a fresh table (the remote side assigns it
`freshId`); then run the tag/association/route phases and the final
re-fetch. -/
def ensure_route_table_present (w : World) (p : ModuleParams) (freshId : String) :
    Except String PresentResult × List ApiCall :=
  match lookup_route_table w p with
  | (.error e, calls) => (.error e, calls)
  | (.ok (some t), calls) => runPhases w p t.rtbId false calls
  | (.ok none, calls) =>
      if p.check_mode then
        (.ok ⟨true, placeholderSnapshot p.tgw_id⟩, calls)
      else
        runPhases (applyCall w (.createRouteTable p.tgw_id freshId)) p freshId true
          (calls ++ [.createRouteTable p.tgw_id freshId])

/-- The changed flag reported by a present-reconciliation outcome
(`none` when the run aborted with an error). -/
def changedOf (r : Except String PresentResult × List ApiCall) : Option Bool :=
  match r.1 with
  | .ok pr => some pr.changed
  | .error _ => none

/-- World for the C8 idempotence scenario: one table, one active route
10.0.0.0/16 via att-a. -/
def c8World : World :=
  [⟨"rtb-1", "tgw-1", [], [], [("10.0.0.0/16", "att-a")]⟩]

/-- Parameters for the C8 idempotence scenario: lookup by id, desired
routes exactly [10.1.0.0/16 via att-b], no tags, no associations, not
check mode. -/
def c8Params : ModuleParams :=
  ⟨Lookup.id, false, "rtb-1", none, "tgw-1", none, some [⟨"10.1.0.0/16", "att-b"⟩], false⟩

/-- The spec-side merge C ∪ D with D winning on key conflicts, as a
lookup function. -/
def mergeLookup (cur desired : Tags) (k : String) : Option String :=
  match desired.lookup k with
  | some v => some v
  | none => cur.lookup k

/-! ### General lemmas about the embedding -/

lemma mutCalls_append (cs ds : List ApiCall) :
    mutCalls (cs ++ ds) = mutCalls cs ++ mutCalls ds :=
  List.filter_append cs ds

lemma applyCalls_append (w : World) (cs ds : List ApiCall) :
    applyCalls w (cs ++ ds) = applyCalls (applyCalls w cs) ds :=
  List.foldl_append applyCall w cs ds

lemma getTagsOf_singleton (rid tgw : String) (tg : Tags) (asc : List Association)
    (rts : List (String × String)) :
    getTagsOf [⟨rid, tgw, tg, asc, rts⟩] rid = tg := by
  unfold getTagsOf
  rw [List.find?_cons_of_pos _ (by simp)]

lemma getAssocsOf_singleton (rid tgw : String) (tg : Tags) (asc : List Association)
    (rts : List (String × String)) :
    getAssocsOf [⟨rid, tgw, tg, asc, rts⟩] rid = asc := by
  unfold getAssocsOf
  rw [List.find?_cons_of_pos _ (by simp)]

lemma getRoutesOf_singleton (rid tgw : String) (tg : Tags) (asc : List Association)
    (rts : List (String × String)) :
    getRoutesOf [⟨rid, tgw, tg, asc, rts⟩] rid = rts := by
  unfold getRoutesOf
  rw [List.find?_cons_of_pos _ (by simp)]

lemma lookup_append (l1 l2 : Tags) (k : String) :
    (l1 ++ l2).lookup k =
      match l1.lookup k with
      | some v => some v
      | none => l2.lookup k := by
  induction l1 with
  | nil => simp
  | cons p t ih =>
      obtain ⟨a, b⟩ := p
      rw [List.cons_append, List.lookup_cons, List.lookup_cons]
      cases h : k == a <;> simp [ih]

lemma lookup_eq_none_of_keys (l : Tags) (k : String)
    (h : k ∉ l.map Prod.fst) : l.lookup k = none := by
  induction l with
  | nil => simp
  | cons p t ih =>
      obtain ⟨a, b⟩ := p
      simp only [List.map_cons, List.mem_cons] at h
      push_neg at h
      rw [List.lookup_cons]
      have hk : (k == a) = false := by
        simp [h.1]
      simp [hk, ih h.2]

lemma lookup_filter_key (l : Tags) (h : String → Bool) (k : String) :
    (l.filter (fun p => h p.1)).lookup k = if h k then l.lookup k else none := by
  induction l with
  | nil => simp
  | cons p t ih =>
      obtain ⟨a, b⟩ := p
      by_cases hk : k = a
      · subst hk
        cases hh : h k
        · simp [List.filter_cons, hh, List.lookup_cons, ih]
        · simp [List.filter_cons, hh, List.lookup_cons, ih]
      · have hba : (k == a) = false := by simp [hk]
        cases hh : h a <;>
          simp [List.filter_cons, hh, List.lookup_cons, hba, ih]

lemma lookup_filter_nodup (l : Tags) (q : String × String → Bool) (k : String)
    (hl : (l.map Prod.fst).Nodup) :
    (l.filter q).lookup k =
      match l.lookup k with
      | some v => if q (k, v) then some v else none
      | none => none := by
  induction l with
  | nil => simp
  | cons p t ih =>
      obtain ⟨a, b⟩ := p
      simp only [List.map_cons, List.nodup_cons] at hl
      by_cases hk : k = a
      · subst hk
        cases hq : q (k, b)
        · have hnone : (t.filter q).lookup k = none := by
            apply lookup_eq_none_of_keys
            intro hmem
            exact hl.1 (by
              obtain ⟨x, hx, hxk⟩ := List.mem_map.mp hmem
              exact List.mem_map.mpr ⟨x, (List.mem_filter.mp hx).1, hxk⟩)
          simp [List.filter_cons, hq, List.lookup_cons, hnone]
        · simp [List.filter_cons, hq, List.lookup_cons]
      · have hba : (k == a) = false := by simp [hk]
        cases hq : q (a, b) <;>
          simp [List.filter_cons, hq, List.lookup_cons, hba, ih hl.2]

lemma lookup_applyCreateTags (base adds : Tags) (k : String) :
    (applyCreateTags base adds).lookup k =
      match adds.lookup k with
      | some v => some v
      | none => base.lookup k := by
  unfold applyCreateTags
  rw [lookup_append,
    lookup_filter_key base (fun x => (List.lookup x adds).isNone) k]
  cases h : adds.lookup k
  · simp only [h, Option.isNone_none]
    cases List.lookup k base <;> simp
  · simp [h]

/-! ### C1: route reconciliation deletes the wrong CIDR -/

/-- C1 (code_bug).  The claim says that for every CIDR present in the
current index but absent from the desired list a delete-route call is
issued for exactly that CIDR, so that afterwards the active CIDR set
equals the desired CIDR set.  The code instead passes
the dest_cidr of `route` — the leftover loop variable, i.e. the LAST desired
route — to the delete call.  At the failing input below the table has the
single active route 10.0.0.0/16 and the single desired route
10.1.0.0/16: the code creates 10.1.0.0/16 and then deletes 10.1.0.0/16
itself (not the errant 10.0.0.0/16), leaving the active CIDR set at
{10.0.0.0/16} ≠ {10.1.0.0/16}. -/
theorem C1_route_delete_targets_wrong_cidr :
    ensure_routes [⟨"rtb-1", "tgw-1", [], [], [("10.0.0.0/16", "att-a")]⟩] "rtb-1"
        [⟨"10.1.0.0/16", "att-b"⟩] false =
      (.ok ⟨true⟩,
        [.searchRoutes "rtb-1", .createRoute "rtb-1" "10.1.0.0/16" "att-b",
         .deleteRoute "rtb-1" "10.1.0.0/16"]) ∧
    getRoutesOf
        (applyCalls [⟨"rtb-1", "tgw-1", [], [], [("10.0.0.0/16", "att-a")]⟩]
          (ensure_routes [⟨"rtb-1", "tgw-1", [], [], [("10.0.0.0/16", "att-a")]⟩] "rtb-1"
            [⟨"10.1.0.0/16", "att-b"⟩] false).2) "rtb-1" =
      [("10.0.0.0/16", "att-a")] :=
  ⟨rfl, rfl⟩

/-! ### C4: check-mode tag projection is a null value -/

/-- C4 (code_bug).  The claim (and the spec) say that in check mode with
a non-empty diff and purging disabled the module returns changed=true
with the current tags shallow-merged with the desired tags.  The code
executes `tags = cur_tags.update(tags)`; the Python `dict.update` method returns
`None`, so the returned tag set is null (`none` in the model), not the
merged mapping `{"a": "1", "b": "2"}`. -/
theorem C4_checkmode_returns_null_tags :
    ensure_tags [⟨"rtb-1", "tgw-1", [("a", "1")], [], []⟩] "rtb-1"
        [("b", "2")] false true =
      (⟨true, none⟩, [.describeTags "rtb-1"]) :=
  rfl

/-! ### Association batch application lemmas -/

lemma applyCalls_associates (ids : List String) :
    ∀ (rid tgw : String) (tg : Tags) (asc : List Association)
      (rts : List (String × String)),
      applyCalls [⟨rid, tgw, tg, asc, rts⟩]
          (ids.map (fun a => ApiCall.associate rid a)) =
        [⟨rid, tgw, tg, asc ++ ids.map (fun a => ⟨a, false⟩), rts⟩] := by
  induction ids with
  | nil => intro rid tgw tg asc rts; simp [applyCalls]
  | cons a rest ih =>
      intro rid tgw tg asc rts
      have h1 : applyCall [⟨rid, tgw, tg, asc, rts⟩] (ApiCall.associate rid a) =
          [⟨rid, tgw, tg, asc ++ [⟨a, false⟩], rts⟩] := by
        simp [applyCall, modifyTable]
      calc applyCalls [⟨rid, tgw, tg, asc, rts⟩]
            ((a :: rest).map (fun x => ApiCall.associate rid x))
          = applyCalls [⟨rid, tgw, tg, asc ++ [⟨a, false⟩], rts⟩]
              (rest.map (fun x => ApiCall.associate rid x)) := by
            rw [List.map_cons]
            show applyCalls (applyCall [⟨rid, tgw, tg, asc, rts⟩] (ApiCall.associate rid a))
                (rest.map (fun x => ApiCall.associate rid x)) = _
            rw [h1]
        _ = [⟨rid, tgw, tg, asc ++ (a :: rest).map (fun x => (⟨x, false⟩ : Association)), rts⟩] := by
            rw [ih rid tgw tg (asc ++ [(⟨a, false⟩ : Association)]) rts]
            simp

lemma applyCalls_disassociates (ids : List String) :
    ∀ (rid tgw : String) (tg : Tags) (asc : List Association)
      (rts : List (String × String)),
      applyCalls [⟨rid, tgw, tg, asc, rts⟩]
          (ids.map (fun a => ApiCall.disassociate rid a)) =
        [⟨rid, tgw, tg, asc.filter (fun x => !(ids.contains x.attachmentId)), rts⟩] := by
  induction ids with
  | nil => intro rid tgw tg asc rts; simp [applyCalls, List.contains]
  | cons a rest ih =>
      intro rid tgw tg asc rts
      have h1 : applyCall [⟨rid, tgw, tg, asc, rts⟩] (ApiCall.disassociate rid a) =
          [⟨rid, tgw, tg, asc.filter (fun x => x.attachmentId != a), rts⟩] := by
        simp [applyCall, modifyTable]
      calc applyCalls [⟨rid, tgw, tg, asc, rts⟩]
            ((a :: rest).map (fun x => ApiCall.disassociate rid x))
          = applyCalls [⟨rid, tgw, tg, asc.filter (fun x => x.attachmentId != a), rts⟩]
              (rest.map (fun x => ApiCall.disassociate rid x)) := by
            rw [List.map_cons]
            show applyCalls (applyCall [⟨rid, tgw, tg, asc, rts⟩] (ApiCall.disassociate rid a))
                (rest.map (fun x => ApiCall.disassociate rid x)) = _
            rw [h1]
        _ = [⟨rid, tgw, tg,
              asc.filter (fun x => !((a :: rest).contains x.attachmentId)), rts⟩] := by
            rw [ih rid tgw tg (asc.filter (fun x => x.attachmentId != a)) rts]
            rw [List.filter_filter]
            congr 2
            apply List.filter_congr
            intro x _
            by_cases hx : x.attachmentId = a <;>
              simp [List.contains, List.elem_cons, hx, Bool.and_comm]

/-! ### C2: association reconciliation -/

/-- C2 counterexample.  The claim says the main/default association is
never altered: a disassociate call is never issued for it.  Here the
only current association of the table is the main one (isMain = true) and the
desired set is empty; `ensure_associations` nevertheless issues a
disassociate call for that very attachment — the code never inspects any
main/default flag. -/
theorem C2_counterexample_main_disassociated :
    (getAssocsOf [⟨"rtb-1", "tgw-1", [], [⟨"att-1", true⟩], []⟩] "rtb-1").map
        (fun x => x.isMain) = [true] ∧
    ensure_associations [⟨"rtb-1", "tgw-1", [], [⟨"att-1", true⟩], []⟩] "rtb-1" [] false =
      (⟨true⟩, [.getAssociations "rtb-1", .disassociate "rtb-1" "att-1"]) :=
  ⟨rfl, rfl⟩

/-- C2 (amended).  After reconciliation the observed association set
equals the desired set `Ds`: each desired id missing from the current
list gets an associate call and each current id missing from the desired
list gets a disassociate call — including the main/default association,
which the code does not exempt.  The first conjunct characterises the
issued calls; the second is the convergence of the attachment-id set. -/
theorem C2_association_convergence (rid tgw : String) (tg : Tags)
    (curAssocs : List Association) (rts : List (String × String))
    (desired : List String) (a : String) :
    (ensure_associations [⟨rid, tgw, tg, curAssocs, rts⟩] rid desired false).2 =
      .getAssociations rid ::
        ((desired.filter
            (fun x => !((curAssocs.map (fun y => y.attachmentId)).contains x))).map
          (fun x => .associate rid x) ++
         ((curAssocs.map (fun y => y.attachmentId)).filter
            (fun x => !(desired.contains x))).map
          (fun x => .disassociate rid x)) ∧
    (a ∈ (getAssocsOf
        (applyCalls [⟨rid, tgw, tg, curAssocs, rts⟩]
          (ensure_associations [⟨rid, tgw, tg, curAssocs, rts⟩] rid desired false).2)
        rid).map (fun x => x.attachmentId) ↔ a ∈ desired) := by
  have hcalls : (ensure_associations [⟨rid, tgw, tg, curAssocs, rts⟩] rid desired false).2 =
      .getAssociations rid ::
        ((desired.filter
            (fun x => !((curAssocs.map (fun y => y.attachmentId)).contains x))).map
          (fun x => ApiCall.associate rid x) ++
         ((curAssocs.map (fun y => y.attachmentId)).filter
            (fun x => !(desired.contains x))).map
          (fun x => ApiCall.disassociate rid x)) := by
    simp only [ensure_associations, getAssocsOf_singleton, Bool.false_eq_true,
      if_neg, ite_false]
  refine ⟨hcalls, ?_⟩
  rw [hcalls]
  have happly : applyCalls [⟨rid, tgw, tg, curAssocs, rts⟩]
      (ApiCall.getAssociations rid ::
        ((desired.filter
            (fun x => !((curAssocs.map (fun y => y.attachmentId)).contains x))).map
          (fun x => ApiCall.associate rid x) ++
         ((curAssocs.map (fun y => y.attachmentId)).filter
            (fun x => !(desired.contains x))).map
          (fun x => ApiCall.disassociate rid x))) =
      [⟨rid, tgw, tg,
        (curAssocs ++ (desired.filter
            (fun x => !((curAssocs.map (fun y => y.attachmentId)).contains x))).map
          (fun x => (⟨x, false⟩ : Association))).filter
          (fun x => !(((curAssocs.map (fun y => y.attachmentId)).filter
            (fun x => !(desired.contains x))).contains x.attachmentId)), rts⟩] := by
    show applyCalls [⟨rid, tgw, tg, curAssocs, rts⟩]
        ((desired.filter
            (fun x => !((curAssocs.map (fun y => y.attachmentId)).contains x))).map
          (fun x => ApiCall.associate rid x) ++
         ((curAssocs.map (fun y => y.attachmentId)).filter
            (fun x => !(desired.contains x))).map
          (fun x => ApiCall.disassociate rid x)) = _
    rw [applyCalls_append, applyCalls_associates, applyCalls_disassociates]
  rw [happly, getAssocsOf_singleton]
  simp only [List.mem_map, List.mem_filter, List.mem_append, List.contains, List.elem_iff,
    Bool.not_eq_true', Bool.not_eq_false]
  constructor
  · rintro ⟨x, ⟨hbig, hpred⟩, rfl⟩
    simp only [List.elem_iff, Bool.eq_false_iff, ne_eq] at hpred
    rcases hbig with hc | hn
    · by_contra hnd
      apply hpred
      refine List.mem_filter.mpr ⟨List.mem_map.mpr ⟨x, hc, rfl⟩, ?_⟩
      simp [List.contains, List.elem_iff, hnd]
    · obtain ⟨y, ⟨hyd, _⟩, rfl⟩ := hn
      exact hyd
  · intro ha
    by_cases hE : a ∈ curAssocs.map (fun y => y.attachmentId)
    · obtain ⟨x, hx, rfl⟩ := List.mem_map.mp hE
      refine ⟨x, ⟨Or.inl hx, ?_⟩, rfl⟩
      simp only [List.elem_iff, Bool.eq_false_iff, ne_eq]
      intro hmem
      have h2 := List.mem_filter.mp hmem
      simp [List.contains, List.elem_iff, ha] at h2
    · have helem : List.elem a (curAssocs.map (fun y => y.attachmentId)) = false := by
        rw [Bool.eq_false_iff]
        intro hc
        exact hE (List.elem_iff.mp hc)
      refine ⟨⟨a, false⟩, ⟨Or.inr ⟨a, ⟨ha, helem⟩, rfl⟩, ?_⟩, rfl⟩
      simp only [List.elem_iff, Bool.eq_false_iff, ne_eq]
      intro hmem
      have h2 := List.mem_filter.mp hmem
      simp [List.contains, List.elem_iff, ha] at h2


/-! ### C3: tag reconciliation -/

lemma applyCreateTags_nil (base : Tags) : applyCreateTags base [] = base := by
  simp [applyCreateTags]

lemma filter_contains_nil (l : Tags) :
    l.filter (fun p => !(([] : List String).contains p.1)) = l := by
  simp [List.contains]

/-- The remote tag set left behind by a non-check-mode `ensure_tags` run
on a single-table world: current tags minus the deleted keys, overridden
by the added entries. -/
lemma ensure_tags_final (rid tgw : String) (asc : List Association)
    (rts : List (String × String)) (cur desired : Tags) (purge : Bool) :
    getTagsOf (applyCalls [⟨rid, tgw, cur, asc, rts⟩]
        (ensure_tags [⟨rid, tgw, cur, asc, rts⟩] rid desired purge false).2) rid =
      applyCreateTags
        (cur.filter (fun p => !((compare_aws_tags cur desired purge).2.contains p.1)))
        (compare_aws_tags cur desired purge).1 := by
  unfold ensure_tags
  rw [getTagsOf_singleton]
  by_cases h : ((compare_aws_tags cur desired purge).1.isEmpty &&
      (compare_aws_tags cur desired purge).2.isEmpty) = true
  · rw [if_pos h]
    rw [Bool.and_eq_true] at h
    have h1 : (compare_aws_tags cur desired purge).1 = [] := by
      rw [← List.isEmpty_iff]; exact h.1
    have h2 : (compare_aws_tags cur desired purge).2 = [] := by
      rw [← List.isEmpty_iff]; exact h.2
    rw [h1, h2, applyCreateTags_nil, filter_contains_nil]
    exact getTagsOf_singleton rid tgw cur asc rts
  · rw [if_neg h]
    rw [if_neg (by simp)]
    by_cases hdel : (compare_aws_tags cur desired purge).2.isEmpty = true
    · have h2 : (compare_aws_tags cur desired purge).2 = [] := by
        rw [← List.isEmpty_iff]; exact hdel
      rw [if_pos hdel, h2, filter_contains_nil]
      by_cases hadd : (compare_aws_tags cur desired purge).1.isEmpty = true
      · exact absurd (by rw [Bool.and_eq_true]; exact ⟨hadd, hdel⟩) h
      · rw [if_neg hadd]
        show getTagsOf (applyCalls [⟨rid, tgw, cur, asc, rts⟩]
          ([ApiCall.describeTags rid] ++ [ApiCall.createTags rid
            (compare_aws_tags cur desired purge).1] ++ [ApiCall.describeTags rid])) rid = _
        rw [applyCalls_append, applyCalls_append]
        show getTagsOf (applyCalls (applyCall [⟨rid, tgw, cur, asc, rts⟩]
          (ApiCall.createTags rid (compare_aws_tags cur desired purge).1))
          [ApiCall.describeTags rid]) rid = _
        have hc : applyCall [(⟨rid, tgw, cur, asc, rts⟩ : RouteTableState)]
            (ApiCall.createTags rid (compare_aws_tags cur desired purge).1) =
            [⟨rid, tgw, applyCreateTags cur (compare_aws_tags cur desired purge).1,
              asc, rts⟩] := by
          simp [applyCall, modifyTable]
        rw [hc]
        exact getTagsOf_singleton rid tgw _ asc rts
    · rw [if_neg hdel]
      have hc : applyCall [(⟨rid, tgw, cur, asc, rts⟩ : RouteTableState)]
          (ApiCall.deleteTags rid (compare_aws_tags cur desired purge).2) =
          [⟨rid, tgw,
            cur.filter (fun p => !((compare_aws_tags cur desired purge).2.contains p.1)),
            asc, rts⟩] := by
        simp [applyCall, modifyTable]
      by_cases hadd : (compare_aws_tags cur desired purge).1.isEmpty = true
      · have h1 : (compare_aws_tags cur desired purge).1 = [] := by
          rw [← List.isEmpty_iff]; exact hadd
        rw [if_pos hadd, h1, applyCreateTags_nil]
        show getTagsOf (applyCalls [⟨rid, tgw, cur, asc, rts⟩]
          ([ApiCall.describeTags rid] ++ [ApiCall.deleteTags rid
            (compare_aws_tags cur desired purge).2] ++ [ApiCall.describeTags rid])) rid = _
        rw [applyCalls_append, applyCalls_append]
        show getTagsOf (applyCalls (applyCall [⟨rid, tgw, cur, asc, rts⟩]
          (ApiCall.deleteTags rid (compare_aws_tags cur desired purge).2))
          [ApiCall.describeTags rid]) rid = _
        rw [hc]
        exact getTagsOf_singleton rid tgw _ asc rts
      · rw [if_neg hadd]
        show getTagsOf (applyCalls [⟨rid, tgw, cur, asc, rts⟩]
          ([ApiCall.describeTags rid] ++ [ApiCall.deleteTags rid
            (compare_aws_tags cur desired purge).2] ++ [ApiCall.createTags rid
            (compare_aws_tags cur desired purge).1] ++ [ApiCall.describeTags rid])) rid = _
        rw [applyCalls_append, applyCalls_append, applyCalls_append]
        show getTagsOf (applyCalls (applyCall (applyCall [⟨rid, tgw, cur, asc, rts⟩]
          (ApiCall.deleteTags rid (compare_aws_tags cur desired purge).2))
          (ApiCall.createTags rid (compare_aws_tags cur desired purge).1))
          [ApiCall.describeTags rid]) rid = _
        rw [hc]
        have hc2 : applyCall [(⟨rid, tgw,
            cur.filter (fun p => !((compare_aws_tags cur desired purge).2.contains p.1)),
            asc, rts⟩ : RouteTableState)]
            (ApiCall.createTags rid (compare_aws_tags cur desired purge).1) =
            [⟨rid, tgw, applyCreateTags
              (cur.filter (fun p => !((compare_aws_tags cur desired purge).2.contains p.1)))
              (compare_aws_tags cur desired purge).1, asc, rts⟩] := by
          simp [applyCall, modifyTable]
        rw [hc2]
        exact getTagsOf_singleton rid tgw _ asc rts

/-- Pointwise value of the converged tag set: with purge it is exactly
the desired mapping, without purge it is current merged with desired,
desired winning. -/
lemma converged_lookup (cur desired : Tags) (purge : Bool) (k : String)
    (hdes : (desired.map Prod.fst).Nodup) :
    (applyCreateTags
        (cur.filter (fun p => !((compare_aws_tags cur desired purge).2.contains p.1)))
        (compare_aws_tags cur desired purge).1).lookup k =
      if purge then desired.lookup k else mergeLookup cur desired k := by
  rw [lookup_applyCreateTags]
  have hadd : (compare_aws_tags cur desired purge).1.lookup k =
      match desired.lookup k with
      | some v => if (!(cur.lookup k == some v)) = true then some v else none
      | none => none := by
    show (desired.filter (fun p => !(cur.lookup p.1 == some p.2))).lookup k = _
    rw [lookup_filter_nodup desired _ k hdes]
  have hfil : (cur.filter
      (fun p => !((compare_aws_tags cur desired purge).2.contains p.1))).lookup k =
      if (compare_aws_tags cur desired purge).2.contains k then none else cur.lookup k := by
    rw [lookup_filter_key cur
      (fun x => !((compare_aws_tags cur desired purge).2.contains x)) k]
    cases h : (compare_aws_tags cur desired purge).2.contains k <;> simp [h]
  rw [hadd, hfil]
  cases purge
  · have h2 : (compare_aws_tags cur desired false).2 = [] := rfl
    rw [h2]
    have : (([] : List String).contains k) = false := rfl
    rw [this, if_neg (by simp)]
    unfold mergeLookup
    cases h : desired.lookup k
    · simp
    · rename_i v
      cases hc : cur.lookup k == some v
      · simp [hc]
      · simp only [hc, Bool.not_true, Bool.false_eq_true, if_neg, ite_false]
        simp only [beq_iff_eq] at hc
        simp [hc]
  · have hdelc : ∀ x, ((compare_aws_tags cur desired true).2.contains x = true) ↔
        (x ∈ cur.map Prod.fst ∧ desired.lookup x = none) := by
      intro x
      show (((cur.map Prod.fst).filter (fun y => (desired.lookup y).isNone)).contains x
        = true) ↔ _
      simp [List.contains, List.elem_iff, List.mem_filter, Option.isNone_iff_eq_none]
    simp only [if_pos]
    cases h : desired.lookup k
    · have hnadd : (match (none : Option String) with
          | some v => if (!(cur.lookup k == some v)) = true then some v else none
          | none => none) = (none : Option String) := rfl
      rw [hnadd]
      by_cases hk : k ∈ cur.map Prod.fst
      · have : (compare_aws_tags cur desired true).2.contains k = true :=
          (hdelc k).mpr ⟨hk, h⟩
        rw [this]
        simp
      · cases hc : (compare_aws_tags cur desired true).2.contains k
        · simp [lookup_eq_none_of_keys cur k hk]
        · simp
    · rename_i v
      have hcont : (compare_aws_tags cur desired true).2.contains k = false := by
        cases hc : (compare_aws_tags cur desired true).2.contains k
        · rfl
        · have := (hdelc k).mp hc
          rw [h] at this
          exact absurd this.2 (by simp)
      rw [hcont]
      simp only [Bool.false_eq_true, if_neg, ite_false]
      cases hc : cur.lookup k == some v
      · simp [hc]
      · simp only [hc, Bool.not_true, Bool.false_eq_true, if_neg, ite_false]
        simp only [beq_iff_eq] at hc
        simp [hc]

/-- C3 (confirmed).  Tag reconciliation, non dry-run, on a single-table
world: the tag set left on the remote resource after the issued calls
are applied equals, pointwise at every key, the desired set when
purge=true and the merge C ∪ D with D winning when purge=false; when the
computed toAdd and toDelete are both empty the function reports
changed=false with the current tags and issues no mutating call; and the
mutating calls are always the deletions followed by the additions.
`hdes` states that the desired tags form a dict (unique keys), which the
Python dict type guarantees. -/
theorem C3_tag_convergence (rid tgw : String) (asc : List Association)
    (rts : List (String × String)) (cur desired : Tags) (purge : Bool) (k : String)
    (hdes : (desired.map Prod.fst).Nodup) :
    ((getTagsOf (applyCalls [⟨rid, tgw, cur, asc, rts⟩]
        (ensure_tags [⟨rid, tgw, cur, asc, rts⟩] rid desired purge false).2) rid).lookup k =
      (if purge then desired.lookup k else mergeLookup cur desired k)) ∧
    (compare_aws_tags cur desired purge = ([], []) →
      ensure_tags [⟨rid, tgw, cur, asc, rts⟩] rid desired purge false =
        (⟨false, some cur⟩, [.describeTags rid])) ∧
    (mutCalls (ensure_tags [⟨rid, tgw, cur, asc, rts⟩] rid desired purge false).2 =
      ((if (compare_aws_tags cur desired purge).2.isEmpty then []
        else [ApiCall.deleteTags rid (compare_aws_tags cur desired purge).2]) ++
       (if (compare_aws_tags cur desired purge).1.isEmpty then []
        else [ApiCall.createTags rid (compare_aws_tags cur desired purge).1]))) := by
  refine ⟨?_, ?_, ?_⟩
  · rw [ensure_tags_final]
    exact converged_lookup cur desired purge k hdes
  · intro h
    unfold ensure_tags
    rw [getTagsOf_singleton]
    simp only [h]
    rfl
  · unfold ensure_tags
    rw [getTagsOf_singleton]
    by_cases h : ((compare_aws_tags cur desired purge).1.isEmpty &&
        (compare_aws_tags cur desired purge).2.isEmpty) = true
    · rw [if_pos h]
      rw [Bool.and_eq_true] at h
      rw [if_pos h.2, if_pos h.1]
      rfl
    · rw [if_neg h, if_neg (by simp)]
      by_cases h2 : (compare_aws_tags cur desired purge).2.isEmpty = true <;>
        by_cases h1 : (compare_aws_tags cur desired purge).1.isEmpty = true <;>
        simp [h1, h2, mutCalls, List.filter, ApiCall.isMutating]

/-- Witness for C3 at a concrete instance: current tags {a: 1, c: 3},
desired {a: 2, b: 4}, purge=true, inspecting key c (which must be, and
is, gone). -/
theorem C3_tag_convergence_witness :
    ((getTagsOf (applyCalls [⟨"rtb-1", "tgw-1", [("a", "1"), ("c", "3")], [], []⟩]
        (ensure_tags [⟨"rtb-1", "tgw-1", [("a", "1"), ("c", "3")], [], []⟩] "rtb-1"
          [("a", "2"), ("b", "4")] true false).2) "rtb-1").lookup "c" =
      (if true then ([("a", "2"), ("b", "4")] : Tags).lookup "c"
       else mergeLookup [("a", "1"), ("c", "3")] [("a", "2"), ("b", "4")] "c")) ∧
    (compare_aws_tags [("a", "1"), ("c", "3")] [("a", "2"), ("b", "4")] true = ([], []) →
      ensure_tags [⟨"rtb-1", "tgw-1", [("a", "1"), ("c", "3")], [], []⟩] "rtb-1"
          [("a", "2"), ("b", "4")] true false =
        (⟨false, some [("a", "1"), ("c", "3")]⟩, [.describeTags "rtb-1"])) ∧
    (mutCalls (ensure_tags [⟨"rtb-1", "tgw-1", [("a", "1"), ("c", "3")], [], []⟩] "rtb-1"
        [("a", "2"), ("b", "4")] true false).2 =
      ((if (compare_aws_tags [("a", "1"), ("c", "3")] [("a", "2"), ("b", "4")] true).2.isEmpty
          then []
        else [ApiCall.deleteTags "rtb-1"
          (compare_aws_tags [("a", "1"), ("c", "3")] [("a", "2"), ("b", "4")] true).2]) ++
       (if (compare_aws_tags [("a", "1"), ("c", "3")] [("a", "2"), ("b", "4")] true).1.isEmpty
          then []
        else [ApiCall.createTags "rtb-1"
          (compare_aws_tags [("a", "1"), ("c", "3")] [("a", "2"), ("b", "4")] true).1]))) :=
  C3_tag_convergence "rtb-1" "tgw-1" [] [] [("a", "1"), ("c", "3")]
    [("a", "2"), ("b", "4")] true "c" (by decide)

/-! ### C5: tag-based lookup -/

/-- C5 (confirmed).  `get_route_table_by_tags` retains exactly the
candidate tables of the gateway whose tag set contains every key/value
pair of the desired tags (first conjunct: the retention predicate
`tags_match` is the superset match); with zero qualifying tables it
returns an absent result, with exactly one it returns that table, and
with more than one it fails with the ambiguous-match error instead of
picking one. -/
theorem C5_tag_lookup (w : World) (tgw : String) (dtags : Tags) (t : RouteTableState) :
    (tags_match dtags t.rtags = true ↔ ∀ p ∈ dtags, t.rtags.lookup p.1 = some p.2) ∧
    ((w.filter (fun x => x.tgwId == tgw)).filter (fun x => tags_match dtags x.rtags) = [] →
      (get_route_table_by_tags w tgw dtags).1 = .ok none) ∧
    (∀ u, (w.filter (fun x => x.tgwId == tgw)).filter (fun x => tags_match dtags x.rtags) = [u] →
      (get_route_table_by_tags w tgw dtags).1 = .ok (some u)) ∧
    (((w.filter (fun x => x.tgwId == tgw)).filter (fun x => tags_match dtags x.rtags)).length > 1 →
      (get_route_table_by_tags w tgw dtags).1 =
        .error "Tags provided do not identify a unique route table") := by
  refine ⟨?_, ?_, ?_, ?_⟩
  · unfold tags_match
    rw [List.all_eq_true]
    constructor
    · intro h p hp
      have := h p hp
      rwa [beq_iff_eq] at this
    · intro h p hp
      rw [beq_iff_eq]
      exact h p hp
  · intro h
    unfold get_route_table_by_tags
    simp only [h]
    rfl
  · intro u h
    unfold get_route_table_by_tags
    simp only [h]
    rfl
  · intro h
    unfold get_route_table_by_tags
    simp only [if_pos h]

/-- Witness for C5: two distinct tables of the same gateway both carry
the desired tag {Name: x}; the lookup fails with the ambiguous-match
error. -/
theorem C5_tag_lookup_witness :
    (get_route_table_by_tags
      [⟨"rtb-1", "tgw-1", [("Name", "x"), ("Env", "p")], [], []⟩,
       ⟨"rtb-2", "tgw-1", [("Name", "x")], [], []⟩] "tgw-1" [("Name", "x")]).1 =
      .error "Tags provided do not identify a unique route table" :=
  (C5_tag_lookup
      [⟨"rtb-1", "tgw-1", [("Name", "x"), ("Env", "p")], [], []⟩,
       ⟨"rtb-2", "tgw-1", [("Name", "x")], [], []⟩] "tgw-1" [("Name", "x")]
      ⟨"rtb-1", "tgw-1", [("Name", "x"), ("Env", "p")], [], []⟩).2.2.2 (by decide)

/-! ### C6: absent on absent -/

lemma get_route_table_by_tags_calls (w : World) (tgw : String) (tags : Tags) :
    (get_route_table_by_tags w tgw tags).2 =
      .describeRouteTablesByTgw tgw ::
        (w.filter (fun t => t.tgwId == tgw)).map (fun t => ApiCall.describeTags t.rtbId) :=
  rfl

lemma mutCalls_lookup_tag (w : World) (tgw : String) (tags : Tags) :
    mutCalls (get_route_table_by_tags w tgw tags).2 = [] := by
  rw [get_route_table_by_tags_calls]
  unfold mutCalls
  rw [List.filter_eq_nil_iff]
  intro a ha
  rcases List.mem_cons.mp ha with h | h
  · subst h; simp [ApiCall.isMutating]
  · obtain ⟨t, _, rfl⟩ := List.mem_map.mp h
    simp [ApiCall.isMutating]

lemma lookup_calls_not_mutating (w : World) (p : ModuleParams) :
    mutCalls (lookup_route_table w p).2 = [] := by
  unfold lookup_route_table
  cases hp : p.lookup
  · cases ht : p.tags
    · rfl
    · exact mutCalls_lookup_tag w p.tgw_id _
  · rfl

/-- C6 (confirmed).  When the configured lookup (by id, or by tags, or
the no-tags degenerate case) resolves to no existing route table,
`ensure_route_table_absent` reports changed=false and its trace contains
no mutating call, for any check-mode setting. -/
theorem C6_absent_on_absent (w : World) (p : ModuleParams)
    (h : (lookup_route_table w p).1 = .ok none) :
    (ensure_route_table_absent w p).1 = .ok ⟨false⟩ ∧
    mutCalls (ensure_route_table_absent w p).2 = [] := by
  unfold ensure_route_table_absent
  rcases hl : lookup_route_table w p with ⟨res, lcalls⟩
  rw [hl] at h
  simp only at h
  subst h
  have hlmut : mutCalls lcalls = [] := by
    have := lookup_calls_not_mutating w p
    rw [hl] at this
    exact this
  exact ⟨rfl, hlmut⟩

/-- Witness for C6: empty world, lookup by id. -/
theorem C6_absent_on_absent_witness :
    (ensure_route_table_absent []
        ⟨Lookup.id, false, "rtb-1", none, "tgw-1", none, none, false⟩).1 = .ok ⟨false⟩ ∧
    mutCalls (ensure_route_table_absent []
        ⟨Lookup.id, false, "rtb-1", none, "tgw-1", none, none, false⟩).2 = [] :=
  C6_absent_on_absent [] ⟨Lookup.id, false, "rtb-1", none, "tgw-1", none, none, false⟩ rfl

/-! ### C7: dry-run never mutates -/

lemma ensure_tags_check_calls (w : World) (rid : String) (tags : Tags) (purge : Bool) :
    (ensure_tags w rid tags purge true).2 = [.describeTags rid] := by
  unfold ensure_tags
  by_cases h : ((compare_aws_tags (getTagsOf w rid) tags purge).1.isEmpty &&
      (compare_aws_tags (getTagsOf w rid) tags purge).2.isEmpty) = true
  · rw [if_pos h]
  · rw [if_neg h]
    rfl

lemma ensure_associations_check_calls (w : World) (rid : String) (as : List String) :
    (ensure_associations w rid as true).2 = [.getAssociations rid] :=
  rfl

lemma ensure_routes_check_calls (w : World) (rid : String) (rs : List DesiredRoute) :
    (ensure_routes w rid rs true).2 = [.searchRoutes rid] :=
  rfl

lemma get_route_table_info_calls (w : World) (rid : String) :
    (get_route_table_info w rid).2 = [.describeRouteTablesById rid, .describeTags rid] :=
  rfl

lemma mutCalls_finishPresent (w3 : World) (rid : String) (ch : Bool)
    (cs : List ApiCall) (hcs : mutCalls cs = []) :
    mutCalls (finishPresent w3 rid ch cs).2 = [] := by
  unfold finishPresent
  split
  · rename_i snap iCalls heq
    have h2 := congrArg Prod.snd heq
    rw [get_route_table_info_calls] at h2
    have hic : iCalls = [ApiCall.describeRouteTablesById rid, ApiCall.describeTags rid] :=
      h2.symm
    rw [mutCalls_append, hcs, hic]
    rfl
  · rename_i iCalls heq
    have h2 := congrArg Prod.snd heq
    rw [get_route_table_info_calls] at h2
    have hic : iCalls = [ApiCall.describeRouteTablesById rid, ApiCall.describeTags rid] :=
      h2.symm
    rw [mutCalls_append, hcs, hic]
    rfl

/-- In check mode none of the three attribute phases nor the final
re-fetch of `runPhases` contributes a mutating call. -/
lemma runPhases_check (w : World) (p : ModuleParams) (rid : String) (ch : Bool)
    (cs : List ApiCall) (hcs : mutCalls cs = []) (hp : p.check_mode = true) :
    mutCalls (runPhases w p rid ch cs).2 = [] := by
  unfold runPhases
  rw [hp]
  have htags : mutCalls ((match p.tags with
      | some tags => ensure_tags w rid tags p.purge_tags true
      | none => ((⟨false, none⟩ : TagsResult), ([] : List ApiCall)))).2 = [] := by
    cases p.tags
    · rfl
    · rw [ensure_tags_check_calls]
      rfl
  have hassoc : ∀ wx, mutCalls ((match p.associations with
      | some assocs => ensure_associations wx rid assocs true
      | none => ((⟨false⟩ : ChangedResult), ([] : List ApiCall)))).2 = [] := by
    intro wx
    cases p.associations
    · rfl
    · rfl
  cases hr : p.routes with
  | none =>
      simp only [hr]
      apply mutCalls_finishPresent
      rw [mutCalls_append, mutCalls_append, mutCalls_append]
      rw [hcs, htags, hassoc]
      rfl
  | some rl =>
      simp only [hr]
      split
      · rename_i e rCalls heq
        have h2 := congrArg Prod.snd heq
        rw [ensure_routes_check_calls] at h2
        have hrc : rCalls = [ApiCall.searchRoutes rid] := h2.symm
        rw [mutCalls_append, mutCalls_append, mutCalls_append]
        rw [hcs, htags, hassoc, hrc]
        rfl
      · rename_i rRes rCalls heq
        have h2 := congrArg Prod.snd heq
        rw [ensure_routes_check_calls] at h2
        have hrc : rCalls = [ApiCall.searchRoutes rid] := h2.symm
        apply mutCalls_finishPresent
        rw [mutCalls_append, mutCalls_append, mutCalls_append]
        rw [hcs, htags, hassoc, hrc]
        rfl

/-- C7 (confirmed).  With the check-mode flag set, neither
`ensure_route_table_present` nor `ensure_route_table_absent` ever emits
a mutating remote call — whatever the lookup mode, desired
tags/associations/routes, remote world, and wherever in the pipeline the
run ends (including the error exits). -/
theorem C7_checkmode_never_mutates (w : World) (p : ModuleParams) (freshId : String) :
    mutCalls (ensure_route_table_present w { p with check_mode := true } freshId).2 = [] ∧
    mutCalls (ensure_route_table_absent w { p with check_mode := true }).2 = [] := by
  constructor
  · unfold ensure_route_table_present
    rcases hl : lookup_route_table w { p with check_mode := true } with ⟨res, lcalls⟩
    have hlmut : mutCalls lcalls = [] := by
      have := lookup_calls_not_mutating w { p with check_mode := true }
      rw [hl] at this
      exact this
    cases res with
    | error e => exact hlmut
    | ok found =>
        cases found with
        | none => exact hlmut
        | some t => exact runPhases_check w _ t.rtbId false lcalls hlmut rfl
  · unfold ensure_route_table_absent
    rcases hl : lookup_route_table w { p with check_mode := true } with ⟨res, lcalls⟩
    have hlmut : mutCalls lcalls = [] := by
      have := lookup_calls_not_mutating w { p with check_mode := true }
      rw [hl] at this
      exact this
    cases res with
    | error e => exact hlmut
    | ok found =>
        cases found with
        | none => exact hlmut
        | some t => exact hlmut

/-! ### C8: idempotence of ensure-present -/

/-- C8 (code_bug).  The claim says a second `ensure_route_table_present`
run against the state the first run produced reports changed=false with
no mutating calls.  At this input (table rtb-1 with active route
10.0.0.0/16, desired routes [10.1.0.0/16 via att-b]) the first run
creates 10.1.0.0/16 and then — because the delete call passes the
dest_cidr of the leftover loop variable instead of the errant CIDR —
deletes 10.1.0.0/16 again, so the world never converges: the second run
again reports changed=true and again issues the same mutating
create/delete calls. -/
theorem C8_second_run_still_changes :
    changedOf (ensure_route_table_present c8World c8Params "rtb-new") = some true ∧
    changedOf (ensure_route_table_present
        (applyCalls c8World (ensure_route_table_present c8World c8Params "rtb-new").2)
        c8Params "rtb-new") = some true ∧
    mutCalls (ensure_route_table_present
        (applyCalls c8World (ensure_route_table_present c8World c8Params "rtb-new").2)
        c8Params "rtb-new").2 =
      [.createRoute "rtb-1" "10.1.0.0/16" "att-b", .deleteRoute "rtb-1" "10.1.0.0/16"] :=
  ⟨rfl, rfl, rfl⟩

/-! ### C9: lookup=tag with no tags -/

/-- C9 (confirmed).  With state=present, lookup=tag and no tags
supplied, no describe of existing route tables happens before creation:
for EVERY remote world — in particular one already containing a table an
identical earlier invocation created — the trace starts with the
unconditional create-route-table call (followed only by the re-fetch of
the fresh table), and the module reports changed=true. -/
theorem C9_unconditional_create_without_tags (w : World) (tgw rtid freshId : String)
    (purge : Bool) :
    ∃ snap, ensure_route_table_present w
        ⟨Lookup.tag, purge, rtid, none, tgw, none, none, false⟩ freshId =
      (.ok ⟨true, snap⟩,
       [.createRouteTable tgw freshId, .describeRouteTablesById freshId,
        .describeTags freshId]) := by
  have hmem : ∃ u, (w ++ [(⟨freshId, tgw, [], [], []⟩ : RouteTableState)]).find?
      (fun t => t.rtbId == freshId) = some u := by
    rw [List.find?_append]
    rcases hf : w.find? (fun t => t.rtbId == freshId) with _ | t
    · refine ⟨⟨freshId, tgw, [], [], []⟩, ?_⟩
      rw [hf, List.find?_cons_of_pos _ (by simp)]
      rfl
    · exact ⟨t, by rw [hf]; rfl⟩
  obtain ⟨u, hu⟩ := hmem
  have hinfo : get_route_table_info
      (w ++ [(⟨freshId, tgw, [], [], []⟩ : RouteTableState)]) freshId =
      (some (snapshotOf u),
       [.describeRouteTablesById freshId, .describeTags freshId]) := by
    unfold get_route_table_info
    rw [hu]
    rfl
  refine ⟨snapshotOf u, ?_⟩
  show finishPresent (w ++ [(⟨freshId, tgw, [], [], []⟩ : RouteTableState)]) freshId true
      [ApiCall.createRouteTable tgw freshId] = _
  unfold finishPresent
  rw [hinfo]
  rfl

/-! ### C10: check-mode placeholder on missing table -/

/-- C10 (confirmed).  In check mode with state=present, when the lookup
resolves to no existing table, the module exits immediately with
changed=true and the placeholder snapshot whose id fields are the fixed
string rtb-xxxxxxxx; the trace is exactly the reads of the lookup itself — the
create, tag, association and route phases and the final re-fetch are all
skipped. -/
theorem C10_checkmode_placeholder (w : World) (p : ModuleParams) (freshId : String)
    (h : (lookup_route_table w { p with check_mode := true }).1 = .ok none) :
    ensure_route_table_present w { p with check_mode := true } freshId =
      (.ok ⟨true, ⟨"rtb-xxxxxxxx", "rtb-xxxxxxxx", p.tgw_id, [], [], []⟩⟩,
       (lookup_route_table w { p with check_mode := true }).2) := by
  unfold ensure_route_table_present
  rcases hl : lookup_route_table w { p with check_mode := true } with ⟨res, lcalls⟩
  rw [hl] at h
  have hres : res = .ok none := h
  subst hres
  rfl

/-- Witness for C10: a world holding an unrelated table rtb-9, lookup by
id for the absent rtb-1 in check mode. -/
theorem C10_checkmode_placeholder_witness :
    ensure_route_table_present [⟨"rtb-9", "tgw-1", [], [], []⟩]
        { (⟨Lookup.id, false, "rtb-1", none, "tgw-1", none,
            some [⟨"10.1.0.0/16", "att-b"⟩], false⟩ : ModuleParams) with
          check_mode := true } "rtb-new" =
      (.ok ⟨true, ⟨"rtb-xxxxxxxx", "rtb-xxxxxxxx", "tgw-1", [], [], []⟩⟩,
       (lookup_route_table [⟨"rtb-9", "tgw-1", [], [], []⟩]
        { (⟨Lookup.id, false, "rtb-1", none, "tgw-1", none,
            some [⟨"10.1.0.0/16", "att-b"⟩], false⟩ : ModuleParams) with
          check_mode := true }).2) :=
  C10_checkmode_placeholder [⟨"rtb-9", "tgw-1", [], [], []⟩]
    ⟨Lookup.id, false, "rtb-1", none, "tgw-1", none,
      some [⟨"10.1.0.0/16", "att-b"⟩], false⟩ "rtb-new" rfl

end TgwRouteTable
